import Mathlib

/-!
Shallow embedding of the GoMiniDistro hierarchical replicated key-value
store (final version of the node, `part_001` of the repository).  The Go
map `map[string]string` is embedded as an association list with Go map
semantics (one value per key, insert-or-overwrite, delete removes the
key).  HTTP handlers become pure functions from a node state and a
request to a new node state, a response, and the list of outbound
replication sends spawned by the handler (the fire-and-forget fan-out
goroutines).  Network calls made by the node itself (registration with a
parent, snapshot pull) take the outcome of the call as an explicit oracle
argument.
-/

/-- Association-list lookup, mirroring `value, ok := m[key]` on a Go map. -/
def lookupKey (k : String) : List (String × String) → Option String
  | [] => none
  | (a, v) :: rest => if a = k then some v else lookupKey k rest

/-- Association-list insert-or-overwrite, mirroring `m[key] = value`. -/
def setKey (k v : String) : List (String × String) → List (String × String)
  | [] => [(k, v)]
  | (a, w) :: rest => if a = k then (k, v) :: rest else (a, w) :: setKey k v rest

/-- Association-list key removal, mirroring `delete(m, key)`. -/
def removeKey (k : String) (l : List (String × String)) : List (String × String) :=
  l.filter (fun p => p.1 != k)

/-- The concurrent string-to-string mapping guarded by the node lock
(`n.data` in the Go source).  The lock itself is not modelled: every
handler in the source holds it for exactly one map operation, so each
handler is one atomic step on the store. -/
structure Store where
  entries : List (String × String)
deriving DecidableEq

/-- Shared-lock read: `Store.Get`. -/
def Store.get (s : Store) (k : String) : Option String :=
  lookupKey k s.entries

/-- Exclusive-lock insert-or-overwrite: `Store.Set`. -/
def Store.set (s : Store) (k v : String) : Store :=
  ⟨setKey k v s.entries⟩

/-- Exclusive-lock removal, a no-op when the key is absent: `Store.Delete`. -/
def Store.delete (s : Store) (k : String) : Store :=
  ⟨removeKey k s.entries⟩

/-- HTTP method of a request, as compared by `r.Method != http.MethodDelete`. -/
inductive Method
  | get
  | post
  | put
  | delete
  | other
deriving DecidableEq

/-- The parts of an incoming HTTP request the handlers read.  `queryKey` is
`r.URL.Query().Get("key")` (empty string when absent), `replicationHeader`
is `r.Header.Get("X-Replication")` (empty string when absent), `sender` is
the remote peer of the connection, which no handler ever reads, and `body`
is the JSON-decoded object body (`none` models a decode error). -/
structure Request where
  method : Method
  queryKey : String
  replicationHeader : String
  sender : String
  body : Option Store
deriving DecidableEq

/-- The response a handler writes: `Response.ok` for `WriteHeader(StatusOK)`
followed by a formatted body, `Response.redirect` for `http.Redirect` with
`StatusTemporaryRedirect`, and `Response.httpError` for `http.Error` with
the given message and status code. -/
inductive Response
  | ok (body : String)
  | redirect (url : String)
  | httpError (msg : String) (status : Nat)
deriving DecidableEq

/-- One outbound replication send spawned by a fan-out loop:
`postReplicate` is the `http.Post` to a child `/replicate` endpoint,
`deleteReplicate` is the DELETE to a child `/delete` endpoint carrying the
`X-Replication: true` marker. -/
inductive Outbound
  | postReplicate (addr key value : String)
  | deleteReplicate (addr key : String)
deriving DecidableEq

/-- Node state: role flag, store, ordered child list, parent address and
self address, exactly the fields of the Go `Node` struct. -/
structure Node where
  isParent : Bool
  data : Store
  childNodes : List String
  parentNode : String
  selfAddress : String
deriving DecidableEq

/-- Fan-out of a set mutation: one `/replicate` POST per child address
(`Node.replicateToChildren`).  Only the dispatched sends are produced
here; what each goroutine does with its send outcome is modelled
separately. -/
def Node.replicateToChildren (n : Node) (key value : String) : List Outbound :=
  n.childNodes.map (fun addr => Outbound.postReplicate addr key value)

/-- Fan-out of a delete mutation: one marked DELETE per child address
(`Node.replicateDeletionToChildren`). -/
def Node.replicateDeletionToChildren (n : Node) (key : String) : List Outbound :=
  n.childNodes.map (fun addr => Outbound.deleteReplicate addr key)

/-- The `/put` handler (`Node.Put`): a child redirects to its parent (500
when no parent is configured); a root decodes the body, validates key and
value, stores the pair, fans it out to every child and acks. -/
def Node.Put (n : Node) (r : Request) : Node × Response × List Outbound :=
  if !n.isParent then
    if n.parentNode = "" then
      (n, Response.httpError "Parent node not available" 500, [])
    else
      (n, Response.redirect ("http://" ++ n.parentNode ++ "/put"), [])
  else
    match r.body with
    | none => (n, Response.httpError "Invalid request payload" 400, [])
    | some body =>
      match body.get "key", body.get "value" with
      | some key, some value =>
          ({ n with data := n.data.set key value },
           Response.ok ("Stored: " ++ key ++ " -> " ++ value ++ "\n"),
           n.replicateToChildren key value)
      | some _, none => (n, Response.httpError "Missing key or value in request" 400, [])
      | none, _ => (n, Response.httpError "Missing key or value in request" 400, [])

/-- The `/get` handler (`Node.Get`): served locally on every role, never
mutates anything, 404 on an absent key. -/
def Node.Get (n : Node) (r : Request) : Response :=
  if r.queryKey = "" then
    Response.httpError "Missing key in request" 400
  else
    match n.data.get r.queryKey with
    | none => Response.httpError "Key not found" 404
    | some value => Response.ok ("Value: " ++ value ++ "\n")

/-- The `/delete` handler (`Node.Delete`): rejects any method other than
DELETE, validates the key, then routes on role and on the
`X-Replication` marker: a child redirects client-originated deletes to
its parent (500 when no parent) and applies replication-originated
deletes locally; a root applies locally and fans the delete out. -/
def Node.Delete (n : Node) (r : Request) : Node × Response × List Outbound :=
  if r.method ≠ Method.delete then
    (n, Response.httpError "Method not allowed" 405, [])
  else if r.queryKey = "" then
    (n, Response.httpError "Missing key in request" 400, [])
  else
    if !n.isParent then
      if r.replicationHeader ≠ "true" then
        if n.parentNode = "" then
          (n, Response.httpError "Parent node not available" 500, [])
        else
          (n, Response.redirect ("http://" ++ n.parentNode ++ "/delete?key=" ++ r.queryKey), [])
      else
        ({ n with data := n.data.delete r.queryKey },
         Response.ok ("Replicated deletion of key: " ++ r.queryKey ++ "\n"), [])
    else
      ({ n with data := n.data.delete r.queryKey },
       Response.ok ("Deleted key: " ++ r.queryKey ++ "\n"),
       n.replicateDeletionToChildren r.queryKey)

/-- The `/replicate` handler (`Node.Replicate`): a parent rejects
replication data outright; any other node decodes the body, validates key
and value and applies the set to its local store.  The handler never
inspects where the request came from. -/
def Node.Replicate (n : Node) (r : Request) : Node × Response :=
  if n.isParent then
    (n, Response.httpError "Parent node cannot receive replication data" 400)
  else
    match r.body with
    | none => (n, Response.httpError "Invalid replication payload" 400)
    | some body =>
      match body.get "key", body.get "value" with
      | some key, some value =>
          ({ n with data := n.data.set key value },
           Response.ok ("Replicated: " ++ key ++ " -> " ++ value ++ "\n"))
      | some _, none => (n, Response.httpError "Missing key or value in replication data" 400)
      | none, _ => (n, Response.httpError "Missing key or value in replication data" 400)

/-- The `/display` handler (`Node.DisplayData`): serves the full current
mapping under the shared lock; mutates nothing. -/
def Node.DisplayData (n : Node) : Store :=
  n.data

/-- Outcome of an outbound HTTP call made by the node itself
(`http.Post` in `registerWithParent`): `transportError` is a non-nil
`err` (in which case the response object is nil), `status` is a delivered
response with the given status code and body text. -/
inductive PostResult
  | transportError (msg : String)
  | status (code : Nat) (body : String)
deriving DecidableEq

/-- Registration step of the Join Protocol (`Node.registerWithParent`):
fails when the self address is unset, on transport error, or on a
non-200 status from the parent; the node state is never touched. Returns
the error message, `none` on success. -/
def Node.registerWithParent (n : Node) (res : PostResult) : Option String :=
  if n.selfAddress = "" then
    some "self address not set"
  else
    match res with
    | PostResult.transportError msg => some msg
    | PostResult.status code body =>
        if code ≠ 200 then some ("registration failed: " ++ body) else none

/-- Outcome of the snapshot pull in `Node.synchronizeData` (`http.Get`
on the parent `/display` endpoint followed by a JSON decode):
`transportError` is a non-nil `err`, `badStatus` a non-200 response with
the given body text, `badPayload` a 200 response whose body fails to
decode, `okPayload` a 200 response decoded into a mapping. -/
inductive SnapshotResult
  | transportError (msg : String)
  | badStatus (body : String)
  | badPayload (msg : String)
  | okPayload (snapshot : Store)
deriving DecidableEq

/-- Synchronize step of the Join Protocol (`Node.synchronizeData`): on
success the whole store is replaced by the pulled snapshot
(`n.data = data`, a wholesale overwrite, not a merge); on any failure the
store is untouched and the error message is returned. -/
def Node.synchronizeData (n : Node) (res : SnapshotResult) : Node × Option String :=
  match res with
  | SnapshotResult.transportError msg => (n, some msg)
  | SnapshotResult.badStatus body => (n, some ("failed to synchronize data: " ++ body))
  | SnapshotResult.badPayload msg => (n, some msg)
  | SnapshotResult.okPayload snapshot => ({ n with data := snapshot }, none)

/-- Extracts the error message `Node.synchronizeData` reports for a given
pull outcome, `none` exactly when the pull succeeds. -/
def syncFailureMsg : SnapshotResult → Option String
  | SnapshotResult.transportError msg => some msg
  | SnapshotResult.badStatus body => some ("failed to synchronize data: " ++ body)
  | SnapshotResult.badPayload msg => some msg
  | SnapshotResult.okPayload _ => none

/-- The `/setParent` handler (`Node.SetParentNode`): rejected on a parent
node; otherwise decodes the body, validates the new parent address,
assigns `parentNode` (before any network step), then runs the two Join
Protocol steps in order, surfacing the first failure as a 500 response.
`reg` and `sync` are the outcomes of the two outbound calls. -/
def Node.SetParentNode (n : Node) (r : Request) (reg : PostResult) (sync : SnapshotResult) :
    Node × Response :=
  if n.isParent then
    (n, Response.httpError "Parent nodes cannot have a parent" 400)
  else
    match r.body with
    | none => (n, Response.httpError "Invalid request payload" 400)
    | some body =>
      match body.get "parentNode" with
      | none => (n, Response.httpError "Missing \x27parentNode\x27 in request" 400)
      | some newParent =>
        if newParent = "" then
          (n, Response.httpError "Missing \x27parentNode\x27 in request" 400)
        else
          match ({ n with parentNode := newParent } : Node).registerWithParent reg with
          | some e =>
              ({ n with parentNode := newParent },
               Response.httpError ("Failed to register with parent node: " ++ e) 500)
          | none =>
            match ({ n with parentNode := newParent } : Node).synchronizeData sync with
            | (n2, some e) =>
                (n2, Response.httpError ("Failed to synchronize data: " ++ e) 500)
            | (n2, none) =>
                (n2, Response.ok ("Parent node updated to: " ++ newParent ++ "\n"))

/-- The `/addChild` handler (`Node.AddChildNode`): rejected on a child
node; otherwise decodes the body, validates the child address and appends
it to the child list — append only, no dedup, no removal. -/
def Node.AddChildNode (n : Node) (r : Request) : Node × Response :=
  if !n.isParent then
    (n, Response.httpError "Only parent nodes can add child nodes" 400)
  else
    match r.body with
    | none => (n, Response.httpError "Invalid request payload" 400)
    | some body =>
      match body.get "childNode" with
      | none => (n, Response.httpError "Missing \x27childNode\x27 in request" 400)
      | some newChild =>
        if newChild = "" then
          (n, Response.httpError "Missing \x27childNode\x27 in request" 400)
        else
          ({ n with childNodes := n.childNodes ++ [newChild] },
           Response.ok ("Child node added: " ++ newChild ++ "\n"))

/-- The address appended to the child list by a given `/addChild` request
when the receiving node is a parent: empty when the request is rejected
for a malformed or missing body. -/
def addChildDelta (r : Request) : List String :=
  match r.body with
  | none => []
  | some body =>
    match body.get "childNode" with
    | none => []
    | some c => if c = "" then [] else [c]

/-- Outcome of one fire-and-forget fan-out send as the spawned goroutine
observes it: `failure` is a non-nil `err` from `http.Post` or
`http.DefaultClient.Do` — in which case the `*http.Response` is nil —
and `success code` a delivered response with that status code. -/
inductive SendResult
  | failure (msg : String)
  | success (code : Nat)
deriving DecidableEq

/-- What one fan-out goroutine does besides the send itself: either it
runs to completion having written the given log lines, or it dereferences
a nil `*http.Response` and panics — an unrecovered panic in a goroutine,
which terminates the whole process. -/
inductive GoroutineOutcome
  | completed (logs : List String)
  | nilResponseCrash (logs : List String)
deriving DecidableEq

/-- Body of one goroutine of `Node.replicateToChildren` (set fan-out).
The source, on a send error, logs and then calls `resp.Body.Close()` even
though `resp` is nil whenever `err` is non-nil, a nil-pointer
dereference; on a delivered response it closes the body and checks
nothing, in particular not the status code. -/
def replicateSendStep (addr : String) (res : SendResult) : GoroutineOutcome :=
  match res with
  | SendResult.failure msg =>
      GoroutineOutcome.nilResponseCrash ["Failed to replicate to " ++ addr ++ ": " ++ msg]
  | SendResult.success _ => GoroutineOutcome.completed []

/-- Body of one goroutine of `Node.replicateDeletionToChildren` (delete
fan-out): a send error is logged and the goroutine returns before
touching the response; a delivered non-200 response is logged; a 200
response is silent.  In every case the goroutine completes with no other
effect. -/
def replicateDeleteSendStep (addr : String) (res : SendResult) : GoroutineOutcome :=
  match res with
  | SendResult.failure msg =>
      GoroutineOutcome.completed ["Failed to replicate deletion to " ++ addr ++ ": " ++ msg]
  | SendResult.success code =>
      if code ≠ 200 then
        GoroutineOutcome.completed
          ["Replication to " ++ addr ++ " failed with status: " ++ toString code]
      else
        GoroutineOutcome.completed []

/-! Store lemmas. -/

/-- Looking up a key right after inserting it yields the inserted value. -/
theorem lookupKey_setKey (k v : String) (l : List (String × String)) :
    lookupKey k (setKey k v l) = some v := by
  induction l with
  | nil => simp [setKey, lookupKey]
  | cons p rest ih =>
      by_cases h : p.1 = k
      · simp [setKey, h, lookupKey]
      · simp [setKey, h, lookupKey, ih]

/-- Looking up a key right after removing it yields nothing. -/
theorem lookupKey_removeKey (k : String) (l : List (String × String)) :
    lookupKey k (removeKey k l) = none := by
  induction l with
  | nil => simp [removeKey, lookupKey]
  | cons p rest ih =>
      by_cases h : p.1 = k
      · simpa [removeKey, h] using ih
      · simpa [removeKey, List.filter_cons, h, lookupKey] using ih

/-- Removing a key twice is the same as removing it once. -/
theorem removeKey_removeKey (k : String) (l : List (String × String)) :
    removeKey k (removeKey k l) = removeKey k l := by
  induction l with
  | nil => simp [removeKey]
  | cons p rest ih =>
      by_cases h : p.1 = k <;> simp_all [removeKey, List.filter_cons]

/-- Removing an absent key leaves the list untouched. -/
theorem removeKey_of_lookupKey_none (k : String) (l : List (String × String))
    (h : lookupKey k l = none) : removeKey k l = l := by
  induction l with
  | nil => simp [removeKey]
  | cons p rest ih =>
      obtain ⟨a, v⟩ := p
      by_cases hp : a = k
      · simp [lookupKey, hp] at h
      · have h2 : lookupKey k rest = none := by simpa [lookupKey, hp] using h
        simp only [removeKey, List.filter_cons] at ih ⊢
        simp [hp, ih h2]

/-- Store-level reading of `lookupKey_setKey`. -/
theorem Store.get_set (s : Store) (k v : String) : (s.set k v).get k = some v :=
  lookupKey_setKey k v s.entries

/-- Store-level reading of `lookupKey_removeKey`. -/
theorem Store.get_delete (s : Store) (k : String) : (s.delete k).get k = none :=
  lookupKey_removeKey k s.entries

/-- Store-level reading of `removeKey_removeKey`. -/
theorem Store.delete_delete (s : Store) (k : String) : (s.delete k).delete k = s.delete k := by
  simp [Store.delete, removeKey_removeKey]

/-- Store-level reading of `removeKey_of_lookupKey_none`. -/
theorem Store.delete_of_get_none (s : Store) (k : String) (h : s.get k = none) :
    s.delete k = s := by
  cases s with
  | mk entries => simp [Store.delete, removeKey_of_lookupKey_none k entries h]

/-! Frame lemmas on the child list: no handler ever removes a child
address, and only `Node.AddChildNode` on a parent appends one. -/

/-- Handler `Node.Put` never touches the child list. -/
theorem Put_childNodes (n : Node) (r : Request) :
    (Node.Put n r).1.childNodes = n.childNodes := by
  unfold Node.Put
  repeat' split
  all_goals rfl

/-- Handler `Node.Delete` never touches the child list. -/
theorem Delete_childNodes (n : Node) (r : Request) :
    (Node.Delete n r).1.childNodes = n.childNodes := by
  unfold Node.Delete
  repeat' split
  all_goals rfl

/-- Handler `Node.Replicate` never touches the child list. -/
theorem Replicate_childNodes (n : Node) (r : Request) :
    (Node.Replicate n r).1.childNodes = n.childNodes := by
  unfold Node.Replicate
  repeat' split
  all_goals rfl

/-- Step `Node.synchronizeData` never touches the child list. -/
theorem synchronizeData_childNodes (n : Node) (res : SnapshotResult) :
    (n.synchronizeData res).1.childNodes = n.childNodes := by
  cases res <;> rfl

/-- Handler `Node.SetParentNode` never touches the child list. -/
theorem SetParentNode_childNodes (n : Node) (r : Request) (reg : PostResult)
    (sync : SnapshotResult) :
    (Node.SetParentNode n r reg sync).1.childNodes = n.childNodes := by
  unfold Node.SetParentNode
  repeat' split
  all_goals try rfl
  all_goals
    (rename_i heq
     simpa [synchronizeData_childNodes] using congrArg (fun p => p.1.childNodes) heq.symm)

/-- Handler `Node.AddChildNode` appends exactly `addChildDelta r` on a
parent and nothing on a child. -/
theorem AddChildNode_childNodes (n : Node) (r : Request) :
    (Node.AddChildNode n r).1.childNodes =
      n.childNodes ++ (if n.isParent then addChildDelta r else []) := by
  cases hp : n.isParent
  · simp [Node.AddChildNode, hp]
  · unfold Node.AddChildNode addChildDelta
    simp only [hp]
    repeat' split
    all_goals simp_all

/-- Failure of the snapshot pull leaves the node exactly as it was and
reports the failure message. -/
theorem synchronizeData_of_failure (n : Node) (res : SnapshotResult) (e : String)
    (h : syncFailureMsg res = some e) : n.synchronizeData res = (n, some e) := by
  cases res <;> simp_all [syncFailureMsg, Node.synchronizeData]

/-! Claim theorems. -/

/-- Claim C1: a delete request carrying the replication-origin marker
(`X-Replication: true`) that arrives at a Child node makes that Child
delete the key from its local Store and respond with the local-apply
success acknowledgement, never a redirect to its parent, for every
parent configuration of the Child — `n.parentNode` is fully
unconstrained here, set or unset. -/
theorem marked_delete_on_child_applies_locally (n : Node) (r : Request)
    (hc : n.isParent = false) (hm : r.method = Method.delete)
    (hk : r.queryKey ≠ "") (hrep : r.replicationHeader = "true") :
    Node.Delete n r =
      ({ n with data := n.data.delete r.queryKey },
       Response.ok ("Replicated deletion of key: " ++ r.queryKey ++ "\n"), []) := by
  simp [Node.Delete, hc, hm, hk, hrep]

/-- Witness for C1 at a Child with a parent configured: concrete marked
delete of key x. -/
def c1Node : Node :=
  { isParent := false, data := ⟨[("x", "1")]⟩, childNodes := [],
    parentNode := "parent:8080", selfAddress := "child:8081" }

/-- Request used by the C1 witness: a marked DELETE for key x. -/
def c1Req : Request :=
  { method := Method.delete, queryKey := "x", replicationHeader := "true",
    sender := "parent:8080", body := none }

/-- Witness instantiating C1 at `c1Node` and `c1Req`. -/
theorem marked_delete_on_child_applies_locally_witness :
    Node.Delete c1Node c1Req =
      ({ c1Node with data := c1Node.data.delete c1Req.queryKey },
       Response.ok ("Replicated deletion of key: " ++ c1Req.queryKey ++ "\n"), []) :=
  marked_delete_on_child_applies_locally c1Node c1Req rfl rfl (by decide) rfl

/-- Claim C6: a put of (k, v) served by a Root stores the pair and acks,
and an immediately following get of k on that same Root returns v with
found = true (the 200 response carrying the value). -/
theorem root_put_then_get_returns_value (n : Node) (r rg : Request) (b : Store)
    (k v : String) (hp : n.isParent = true) (hb : r.body = some b)
    (hk : b.get "key" = some k) (hv : b.get "value" = some v)
    (hkne : k ≠ "") (hq : rg.queryKey = k) :
    (Node.Put n r).2.1 = Response.ok ("Stored: " ++ k ++ " -> " ++ v ++ "\n") ∧
    Node.Get (Node.Put n r).1 rg = Response.ok ("Value: " ++ v ++ "\n") := by
  constructor
  · simp [Node.Put, hp, hb, hk, hv]
  · simp [Node.Put, hp, hb, hk, hv, Node.Get, hq, hkne, Store.get_set]

/-- Root node used by the C6 witness. -/
def c6Node : Node :=
  { isParent := true, data := ⟨[]⟩, childNodes := ["child1:8081"],
    parentNode := "", selfAddress := "root:8080" }

/-- Put request used by the C6 witness. -/
def c6PutReq : Request :=
  { method := Method.post, queryKey := "", replicationHeader := "",
    sender := "client:9", body := some ⟨[("key", "name"), ("value", "alice")]⟩ }

/-- Get request used by the C6 witness. -/
def c6GetReq : Request :=
  { method := Method.get, queryKey := "name", replicationHeader := "",
    sender := "client:9", body := none }

/-- Witness instantiating C6 at a concrete Root, key and value. -/
theorem root_put_then_get_returns_value_witness :
    (Node.Put c6Node c6PutReq).2.1 =
      Response.ok ("Stored: " ++ "name" ++ " -> " ++ "alice" ++ "\n") ∧
    Node.Get (Node.Put c6Node c6PutReq).1 c6GetReq =
      Response.ok ("Value: " ++ "alice" ++ "\n") :=
  root_put_then_get_returns_value c6Node c6PutReq c6GetReq
    ⟨[("key", "name"), ("value", "alice")]⟩ "name" "alice"
    rfl rfl rfl rfl (by decide) rfl

/-- Claim C7: a put served by a Child leaves the local Store (indeed the
whole node) unchanged and spawns no fan-out; its response is the
redirect naming the parent address, or the no-parent 500 failure when
`parentNode` is empty — never a success acknowledgement. -/
theorem child_put_never_writes (n : Node) (r : Request) (hc : n.isParent = false) :
    (Node.Put n r).1 = n ∧ (Node.Put n r).2.2 = [] ∧
    (Node.Put n r).2.1 =
      (if n.parentNode = "" then Response.httpError "Parent node not available" 500
       else Response.redirect ("http://" ++ n.parentNode ++ "/put")) := by
  by_cases hp : n.parentNode = "" <;> simp [Node.Put, hc, hp]

/-- Child node used by the C7 witness, holding prior data and a parent. -/
def c7Node : Node :=
  { isParent := false, data := ⟨[("a", "1")]⟩, childNodes := [],
    parentNode := "parent:8080", selfAddress := "child:8081" }

/-- Put request used by the C7 witness, with a well-formed body. -/
def c7Req : Request :=
  { method := Method.post, queryKey := "", replicationHeader := "",
    sender := "client:9", body := some ⟨[("key", "a"), ("value", "2")]⟩ }

/-- Witness instantiating C7 at a concrete Child. -/
theorem child_put_never_writes_witness :
    (Node.Put c7Node c7Req).1 = c7Node ∧ (Node.Put c7Node c7Req).2.2 = [] ∧
    (Node.Put c7Node c7Req).2.1 =
      (if c7Node.parentNode = "" then Response.httpError "Parent node not available" 500
       else Response.redirect ("http://" ++ c7Node.parentNode ++ "/put")) :=
  child_put_never_writes c7Node c7Req rfl

/-- Claim C8: a delete of k served by a Root acks, a following get of k on
that Root is not-found, and a second delete of the same key is a no-op
success returning the very same node — and on a Root whose Store does not
hold k at all, delete acks without changing the node, so delete is
idempotent on the Root Store and deleting an absent key is a no-op
success. -/
theorem root_delete_idempotent (n m : Node) (r rg : Request) (k : String)
    (hp : n.isParent = true) (hmp : m.isParent = true)
    (hmeth : r.method = Method.delete) (hk : r.queryKey = k) (hkne : k ≠ "")
    (hg : rg.queryKey = k) (habs : m.data.get k = none) :
    (Node.Delete n r).2.1 = Response.ok ("Deleted key: " ++ k ++ "\n") ∧
    Node.Get (Node.Delete n r).1 rg = Response.httpError "Key not found" 404 ∧
    Node.Delete (Node.Delete n r).1 r =
      ((Node.Delete n r).1, Response.ok ("Deleted key: " ++ k ++ "\n"),
       Node.replicateDeletionToChildren (Node.Delete n r).1 k) ∧
    Node.Delete m r =
      (m, Response.ok ("Deleted key: " ++ k ++ "\n"),
       Node.replicateDeletionToChildren m k) := by
  subst hk
  refine ⟨?_, ?_, ?_, ?_⟩
  · simp [Node.Delete, hp, hmeth, hkne]
  · simp [Node.Delete, hp, hmeth, hkne, Node.Get, hg, Store.get_delete]
  · simp [Node.Delete, hp, hmeth, hkne, Store.delete_delete]
  · obtain ⟨mi, md, mc, mp, ms⟩ := m
    simp only at hmp habs
    subst hmp
    simp [Node.Delete, hmeth, hkne, Store.delete_of_get_none _ _ habs]

/-- Root node used by the C8 witness, holding key x. -/
def c8Node : Node :=
  { isParent := true, data := ⟨[("x", "7")]⟩, childNodes := ["child1:8081"],
    parentNode := "", selfAddress := "root:8080" }

/-- Root node used by the C8 witness whose Store lacks key x. -/
def c8Absent : Node :=
  { isParent := true, data := ⟨[("y", "9")]⟩, childNodes := [],
    parentNode := "", selfAddress := "root:8080" }

/-- Delete request used by the C8 witness. -/
def c8DelReq : Request :=
  { method := Method.delete, queryKey := "x", replicationHeader := "",
    sender := "client:9", body := none }

/-- Get request used by the C8 witness. -/
def c8GetReq : Request :=
  { method := Method.get, queryKey := "x", replicationHeader := "",
    sender := "client:9", body := none }

/-- Witness instantiating C8 at a concrete Root and key. -/
theorem root_delete_idempotent_witness :
    (Node.Delete c8Node c8DelReq).2.1 = Response.ok ("Deleted key: " ++ "x" ++ "\n") ∧
    Node.Get (Node.Delete c8Node c8DelReq).1 c8GetReq =
      Response.httpError "Key not found" 404 ∧
    Node.Delete (Node.Delete c8Node c8DelReq).1 c8DelReq =
      ((Node.Delete c8Node c8DelReq).1, Response.ok ("Deleted key: " ++ "x" ++ "\n"),
       Node.replicateDeletionToChildren (Node.Delete c8Node c8DelReq).1 "x") ∧
    Node.Delete c8Absent c8DelReq =
      (c8Absent, Response.ok ("Deleted key: " ++ "x" ++ "\n"),
       Node.replicateDeletionToChildren c8Absent "x") :=
  root_delete_idempotent c8Node c8Absent c8DelReq c8GetReq "x"
    rfl rfl rfl rfl (by decide) rfl (by decide)

/-- Claim C10: a delete request whose method is not DELETE is rejected
with the method-not-allowed error for every node role and every request
state — before the key or the replication marker is looked at and with
no change to the Store and no fan-out — so POST-style or GET-style calls
to the delete endpoint (including the first-version POST-based deletion
fan-out) can never delete a key. -/
theorem non_delete_method_rejected (n : Node) (r : Request)
    (hm : r.method ≠ Method.delete) :
    Node.Delete n r = (n, Response.httpError "Method not allowed" 405, []) := by
  simp [Node.Delete, hm]

/-- Witness instantiating C10: a POST to the delete endpoint of a Child
holding data, with the replication marker set and a key named, exactly
the shape of the first-version POST-based deletion fan-out. -/
theorem non_delete_method_rejected_witness :
    Node.Delete c1Node
      { method := Method.post, queryKey := "x", replicationHeader := "true",
        sender := "parent:8080", body := none } =
      (c1Node, Response.httpError "Method not allowed" 405, []) :=
  non_delete_method_rejected c1Node
    { method := Method.post, queryKey := "x", replicationHeader := "true",
      sender := "parent:8080", body := none } (by decide)

/-- Root node used by the C2 evaluation, one child configured. -/
def c2Node : Node :=
  { isParent := true, data := ⟨[]⟩, childNodes := ["child1"],
    parentNode := "", selfAddress := "root:8080" }

/-- Put request used by the C2 evaluation. -/
def c2Req : Request :=
  { method := Method.post, queryKey := "", replicationHeader := "",
    sender := "client:9", body := some ⟨[("key", "name"), ("value", "alice")]⟩ }

/-- Claim C2, evaluated at the failing input: a Root with one child
serves a put, dispatching one fan-out send; when that send fails at the
transport level the spawned goroutine of `replicateToChildren` logs and
then dereferences the nil response object — an unrecovered panic in a
goroutine, which terminates the whole process, so the failed delivery is
not swallowed with only a log line.  The corresponding goroutine of the
deletion fan-out does swallow its failure with only a log line, as the
claim describes. -/
theorem failed_set_fanout_crashes_node :
    (Node.Put c2Node c2Req).2.1 = Response.ok "Stored: name -> alice\n" ∧
    (Node.Put c2Node c2Req).2.2 = [Outbound.postReplicate "child1" "name" "alice"] ∧
    replicateSendStep "child1" (SendResult.failure "connection refused") =
      GoroutineOutcome.nilResponseCrash
        ["Failed to replicate to child1: connection refused"] ∧
    replicateDeleteSendStep "child1" (SendResult.failure "connection refused") =
      GoroutineOutcome.completed
        ["Failed to replicate deletion to child1: connection refused"] :=
  ⟨rfl, rfl, rfl, rfl⟩

/-- Child node used by the C3 counterexample: its parent is parent:8080. -/
def c3Child : Node :=
  { isParent := false, data := ⟨[]⟩, childNodes := [],
    parentNode := "parent:8080", selfAddress := "child:8081" }

/-- Replication request used by the C3 counterexample, sent by a peer
that is not the parent of `c3Child`. -/
def c3Req : Request :=
  { method := Method.post, queryKey := "", replicationHeader := "",
    sender := "attacker:9999", body := some ⟨[("key", "k"), ("value", "v")]⟩ }

/-- Counterexample to claim C3 as stated: a replicateSet request reaching
a Child from a sender that is not its parent is not rejected — it is
applied to the Child Store and acknowledged with success.  The handler
never reads the sender at all. -/
theorem child_replicate_accepts_nonparent_sender :
    c3Req.sender ≠ c3Child.parentNode ∧
    (Node.Replicate c3Child c3Req).2 = Response.ok "Replicated: k -> v\n" ∧
    (Node.Replicate c3Child c3Req).1.data ≠ c3Child.data :=
  ⟨by decide, rfl, by decide⟩

/-- Claim C3 as amended: a Root rejects every request to the
replication-set endpoint, whatever the request looks like, so
replicateSet never mutates a Root Store; a Child applies every
well-formed replicateSet to its Store and acks, with no condition on the
sender — the code performs no sender check, so traffic from non-parent
peers is accepted, not rejected. -/
theorem replicate_root_rejects_child_applies (p c : Node) (r1 r2 : Request)
    (b : Store) (k v : String) (hp : p.isParent = true) (hc : c.isParent = false)
    (hb : r2.body = some b) (hk : b.get "key" = some k) (hv : b.get "value" = some v) :
    Node.Replicate p r1 =
      (p, Response.httpError "Parent node cannot receive replication data" 400) ∧
    Node.Replicate c r2 =
      ({ c with data := c.data.set k v },
       Response.ok ("Replicated: " ++ k ++ " -> " ++ v ++ "\n")) := by
  constructor
  · simp [Node.Replicate, hp]
  · simp [Node.Replicate, hc, hb, hk, hv]

/-- Root node used by the C3 witness. -/
def c3Root : Node :=
  { isParent := true, data := ⟨[]⟩, childNodes := ["child:8081"],
    parentNode := "", selfAddress := "parent:8080" }

/-- Witness instantiating the amended C3: the Root rejects the very same
replication request that the Child — receiving it from a non-parent
sender — applies. -/
theorem replicate_root_rejects_child_applies_witness :
    Node.Replicate c3Root c3Req =
      (c3Root, Response.httpError "Parent node cannot receive replication data" 400) ∧
    Node.Replicate c3Child c3Req =
      ({ c3Child with data := c3Child.data.set "k" "v" },
       Response.ok ("Replicated: " ++ "k" ++ " -> " ++ "v" ++ "\n")) :=
  replicate_root_rejects_child_applies c3Root c3Child c3Req c3Req
    ⟨[("key", "k"), ("value", "v")]⟩ "k" "v" rfl rfl rfl rfl rfl

/-- Claim C4: on a Child, a setParent whose registration succeeds and
whose snapshot pull delivers the mapping `snap` ends with the Child Store
being exactly `snap` — the prior store contents `n.data`, whatever they
were, are discarded wholesale, not merged — and the success
acknowledgement is returned. -/
theorem successful_setParent_replaces_store (n : Node) (r : Request) (b snap : Store)
    (np regBody : String) (hc : n.isParent = false) (hb : r.body = some b)
    (hnp : b.get "parentNode" = some np) (hne : np ≠ "") (hself : n.selfAddress ≠ "") :
    Node.SetParentNode n r (PostResult.status 200 regBody) (SnapshotResult.okPayload snap) =
      ({ n with parentNode := np, data := snap },
       Response.ok ("Parent node updated to: " ++ np ++ "\n")) := by
  simp [Node.SetParentNode, hc, hb, hnp, hne, Node.registerWithParent, hself,
    Node.synchronizeData]

/-- Child node used by the C4 witness, holding pre-existing local entries
absent from the parent snapshot. -/
def c4Node : Node :=
  { isParent := false, data := ⟨[("stale", "0"), ("a", "9")]⟩, childNodes := [],
    parentNode := "", selfAddress := "child:8081" }

/-- setParent request used by the C4 and C5 witnesses. -/
def c4Req : Request :=
  { method := Method.post, queryKey := "", replicationHeader := "",
    sender := "admin:1", body := some ⟨[("parentNode", "parent:8080")]⟩ }

/-- Parent snapshot used by the C4 witness, the mapping a 1, b 2. -/
def c4Snap : Store := ⟨[("a", "1"), ("b", "2")]⟩

/-- Witness instantiating C4: after the successful join the Child Store
is exactly the snapshot a 1, b 2, its pre-existing entries gone. -/
theorem successful_setParent_replaces_store_witness :
    Node.SetParentNode c4Node c4Req (PostResult.status 200 "ok")
        (SnapshotResult.okPayload c4Snap) =
      ({ c4Node with parentNode := "parent:8080", data := c4Snap },
       Response.ok ("Parent node updated to: " ++ "parent:8080" ++ "\n")) :=
  successful_setParent_replaces_store c4Node c4Req
    ⟨[("parentNode", "parent:8080")]⟩ c4Snap "parent:8080" "ok"
    rfl rfl rfl (by decide) (by decide)

/-- Child node used by the C5 counterexample, with an existing parent. -/
def c5Child : Node :=
  { isParent := false, data := ⟨[("x", "1")]⟩, childNodes := [],
    parentNode := "old:8080", selfAddress := "child:8081" }

/-- setParent request used by the C5 counterexample. -/
def c5Req : Request :=
  { method := Method.post, queryKey := "", replicationHeader := "",
    sender := "admin:1", body := some ⟨[("parentNode", "new:8080")]⟩ }

/-- Counterexample to claim C5 as stated: when registration with the new
parent fails, the topology of the node is not unchanged — `parentNode`
has already been reassigned to the new parent before the registration
attempt and is not rolled back, even though the response is the
RegistrationFailed 500 error. -/
theorem registration_failure_leaves_new_parent :
    c5Child.parentNode = "old:8080" ∧
    (Node.SetParentNode c5Child c5Req (PostResult.transportError "connection refused")
        (SnapshotResult.okPayload ⟨[]⟩)).2 =
      Response.httpError "Failed to register with parent node: connection refused" 500 ∧
    (Node.SetParentNode c5Child c5Req (PostResult.transportError "connection refused")
        (SnapshotResult.okPayload ⟨[]⟩)).1.parentNode = "new:8080" :=
  ⟨rfl, rfl, rfl⟩

/-- Claim C5 as amended: either Join Protocol failure is surfaced to the
setParent caller as a 500 error and the node keeps running; on
RegistrationFailed the Store and the child list are unchanged but
`parentNode` has already been reassigned to the new parent (no
rollback); on SyncFailed the node is likewise left pointing at (and
registered with) the new parent with its Store unchanged. -/
theorem setParent_failure_surfaced_partial_state (n : Node) (r : Request) (b : Store)
    (np e1 e2 : String) (reg1 reg2 : PostResult) (sync1 sync2 : SnapshotResult)
    (hc : n.isParent = false) (hb : r.body = some b)
    (hnp : b.get "parentNode" = some np) (hne : np ≠ "")
    (hreg1 : Node.registerWithParent { n with parentNode := np } reg1 = some e1)
    (hreg2 : Node.registerWithParent { n with parentNode := np } reg2 = none)
    (hsync2 : syncFailureMsg sync2 = some e2) :
    Node.SetParentNode n r reg1 sync1 =
      ({ n with parentNode := np },
       Response.httpError ("Failed to register with parent node: " ++ e1) 500) ∧
    Node.SetParentNode n r reg2 sync2 =
      ({ n with parentNode := np },
       Response.httpError ("Failed to synchronize data: " ++ e2) 500) := by
  rw [hc] at hreg1 hreg2
  constructor
  · simp [Node.SetParentNode, hc, hb, hnp, hne, hreg1]
  · simp [Node.SetParentNode, hc, hb, hnp, hne, hreg2,
      synchronizeData_of_failure _ _ _ hsync2]

/-- Witness instantiating the amended C5 at `c5Child`: a transport-level
registration failure and, separately, a non-200 snapshot pull. -/
theorem setParent_failure_surfaced_partial_state_witness :
    Node.SetParentNode c5Child c5Req (PostResult.transportError "connection refused")
        (SnapshotResult.okPayload ⟨[]⟩) =
      ({ c5Child with parentNode := "new:8080" },
       Response.httpError
         ("Failed to register with parent node: " ++ "connection refused") 500) ∧
    Node.SetParentNode c5Child c5Req (PostResult.status 200 "ok")
        (SnapshotResult.badStatus "boom") =
      ({ c5Child with parentNode := "new:8080" },
       Response.httpError
         ("Failed to synchronize data: " ++ ("failed to synchronize data: " ++ "boom"))
         500) :=
  setParent_failure_surfaced_partial_state c5Child c5Req
    ⟨[("parentNode", "new:8080")]⟩ "new:8080" "connection refused"
    ("failed to synchronize data: " ++ "boom")
    (PostResult.transportError "connection refused") (PostResult.status 200 "ok")
    (SnapshotResult.okPayload ⟨[]⟩) (SnapshotResult.badStatus "boom")
    rfl rfl rfl (by decide) rfl rfl rfl

/-- Claim C9: addChild on a Root appends the address to the child list
and acks; a second identical registration appends a duplicate entry (no
dedup); addChild on a Child is rejected with no change of state; and no
operation ever removes an entry — Put, Delete, Replicate, SetParentNode
and the snapshot sync all leave the child list untouched, and
AddChildNode only ever appends. -/
theorem addChild_append_only (p c n : Node) (rAdd r1 r2 r3 r4 r5 : Request)
    (b : Store) (a : String) (reg : PostResult) (sync : SnapshotResult)
    (hp : p.isParent = true) (hc : c.isParent = false)
    (hb : rAdd.body = some b) (ha : b.get "childNode" = some a) (hane : a ≠ "") :
    Node.AddChildNode p rAdd =
      ({ p with childNodes := p.childNodes ++ [a] },
       Response.ok ("Child node added: " ++ a ++ "\n")) ∧
    (Node.AddChildNode (Node.AddChildNode p rAdd).1 rAdd).1.childNodes =
      p.childNodes ++ [a, a] ∧
    Node.AddChildNode c rAdd =
      (c, Response.httpError "Only parent nodes can add child nodes" 400) ∧
    (Node.Put n r1).1.childNodes = n.childNodes ∧
    (Node.Delete n r2).1.childNodes = n.childNodes ∧
    (Node.Replicate n r3).1.childNodes = n.childNodes ∧
    (Node.SetParentNode n r4 reg sync).1.childNodes = n.childNodes ∧
    (n.synchronizeData sync).1.childNodes = n.childNodes ∧
    (Node.AddChildNode n r5).1.childNodes =
      n.childNodes ++ (if n.isParent then addChildDelta r5 else []) := by
  refine ⟨?_, ?_, ?_, Put_childNodes n r1, Delete_childNodes n r2,
    Replicate_childNodes n r3, SetParentNode_childNodes n r4 reg sync,
    synchronizeData_childNodes n sync, AddChildNode_childNodes n r5⟩
  · simp [Node.AddChildNode, hp, hb, ha, hane]
  · simp [Node.AddChildNode, hp, hb, ha, hane]
  · simp [Node.AddChildNode, hc]

/-- addChild request used by the C9 witness. -/
def c9Req : Request :=
  { method := Method.post, queryKey := "", replicationHeader := "",
    sender := "child:8081", body := some ⟨[("childNode", "child:8081")]⟩ }

/-- Witness instantiating C9 at a concrete Root, Child and address. -/
theorem addChild_append_only_witness :
    Node.AddChildNode c3Root c9Req =
      ({ c3Root with childNodes := c3Root.childNodes ++ ["child:8081"] },
       Response.ok ("Child node added: " ++ "child:8081" ++ "\n")) ∧
    (Node.AddChildNode (Node.AddChildNode c3Root c9Req).1 c9Req).1.childNodes =
      c3Root.childNodes ++ ["child:8081", "child:8081"] ∧
    Node.AddChildNode c3Child c9Req =
      (c3Child, Response.httpError "Only parent nodes can add child nodes" 400) ∧
    (Node.Put c3Child c9Req).1.childNodes = c3Child.childNodes ∧
    (Node.Delete c3Child c9Req).1.childNodes = c3Child.childNodes ∧
    (Node.Replicate c3Child c9Req).1.childNodes = c3Child.childNodes ∧
    (Node.SetParentNode c3Child c9Req (PostResult.status 200 "ok")
        (SnapshotResult.okPayload ⟨[]⟩)).1.childNodes = c3Child.childNodes ∧
    (c3Child.synchronizeData (SnapshotResult.okPayload ⟨[]⟩)).1.childNodes =
      c3Child.childNodes ∧
    (Node.AddChildNode c3Child c9Req).1.childNodes =
      c3Child.childNodes ++ (if c3Child.isParent then addChildDelta c9Req else []) :=
  addChild_append_only c3Root c3Child c3Child c9Req c9Req c9Req c9Req c9Req c9Req
    ⟨[("childNode", "child:8081")]⟩ "child:8081"
    (PostResult.status 200 "ok") (SnapshotResult.okPayload ⟨[]⟩)
    rfl rfl rfl rfl (by decide)
